import Mathlib

/-!
Shallow embedding of `src/clients/python/pycellbase/cbclient.py` (the
`CellBaseClient` facade of the pycellbase library), together with
spec-modelled stand-ins for the parts of the repository that the facade
imports but whose sources are not available here (`pycellbase.cbconfig`,
`pycellbase.cbrestclients`, `pycellbase.commons`).

Python object identity is modelled explicitly: every constructed
per-resource client object carries a unique object id (`oid`) drawn from a
monotone per-facade counter, so "reference equality" of two returned
clients is equality of the carried ids (and of the whole record).
Stateful methods become functions from the facade state to a result paired
with the new facade state.
-/

namespace Cellbase

/-- The ten resource kinds whose clients the facade exposes, in the order
their memoization slots are declared in `CellBaseClient.__init__`. -/
inductive ResourceKind where
  | gene
  | transcript
  | protein
  | variation
  | xref
  | genomic_region
  | variant
  | genome_sequence
  | clinical
  | meta
deriving DecidableEq, Repr

/-- Modelled from the spec: the configuration data held by
`pycellbase.cbconfig.ConfigClient` (whose source is not under `src/`):
`{host, version, species, default_options}` per the spec's data model. -/
structure ConfigData where
  host : String
  version : String
  species : String
  default_options : List (String × String)
deriving DecidableEq, Repr

/-- Modelled from the spec: `pycellbase.cbconfig.ConfigClient` (source not
under `src/`). It holds one configuration; the facade reads its
`configuration`, `host`, `version` and `species` attributes. -/
structure ConfigClient where
  configuration : ConfigData
deriving DecidableEq, Repr

/-- Modelled from the spec: the default configuration values loaded when
`ConfigClient()` is constructed with no argument. The spec fixes the shape
`{host, version, species, default_options}` but not the concrete default
values; any fixed values represent them. -/
def defaultConfigData : ConfigData :=
  { host := "http://bioinfo.hpc.cam.ac.uk/cellbase/webservices/rest"
    version := "v4"
    species := "hsapiens"
    default_options := [] }

/-- Modelled from the spec: `ConfigClient()` — constructing a configuration
client with no argument loads the defaults. -/
def ConfigClient.default : ConfigClient :=
  { configuration := defaultConfigData }

/-- Modelled from the spec: `ConfigClient.get_default_configuration`
"returns a fresh default regardless of current state; pure". -/
def ConfigClient.get_default_configuration (_cc : ConfigClient) : ConfigData :=
  defaultConfigData

/-- Modelled from the spec: the `host` attribute read by the facade's
`get`. -/
def ConfigClient.host (cc : ConfigClient) : String :=
  cc.configuration.host

/-- Modelled from the spec: the `version` attribute read by the facade's
`get`. -/
def ConfigClient.version (cc : ConfigClient) : String :=
  cc.configuration.version

/-- Modelled from the spec: the `species` attribute read by the facade's
`get`. -/
def ConfigClient.species (cc : ConfigClient) : String :=
  cc.configuration.species

/-- Modelled from the spec: a per-resource client object as constructed by
the `pycellbase.cbrestclients` classes (source not under `src/`): it binds
the shared configuration (recorded here by the configuration object's id)
and is a distinct Python object (recorded by its own fresh `oid`).
Distinct classes (gene client vs protein client, ...) are recorded by
`kind`. -/
structure RESTClientObj where
  oid : Nat
  kind : ResourceKind
  config_oid : Nat
deriving DecidableEq, Repr

/-- The state of one `CellBaseClient` facade instance: the ten memoization
slots (each `None` until the corresponding accessor is first called), the
configuration object (its identity `configuration_oid` and its value), and
the allocator counter `next_oid` providing fresh object ids. -/
structure CellBaseClient where
  gene_client : Option RESTClientObj
  transcript_client : Option RESTClientObj
  protein_client : Option RESTClientObj
  variation_client : Option RESTClientObj
  xref_client : Option RESTClientObj
  genomic_region_client : Option RESTClientObj
  variant_client : Option RESTClientObj
  genome_sequence_client : Option RESTClientObj
  clinical_client : Option RESTClientObj
  meta_client : Option RESTClientObj
  configuration_oid : Nat
  configuration : ConfigClient
  next_oid : Nat
deriving DecidableEq, Repr

/-- A Python value passed as the `config_client` argument of
`CellBaseClient.__init__`: either a `ConfigClient` object (with its object
id), or some non-`ConfigClient` object such as a plain mapping or a
string. -/
inductive PyValue where
  | config (oid : Nat) (cc : ConfigClient)
  | mapping (m : List (String × String))
  | pystr (s : String)
deriving DecidableEq, Repr

/-- Whether a `PyValue` satisfies Python's
`isinstance(config_client, ConfigClient)` check. -/
def PyValue.isConfigClient : PyValue → Bool
  | .config _ _ => true
  | .mapping _ => false
  | .pystr _ => false

/-- The error message raised by `CellBaseClient.__init__` on a
non-`ConfigClient` argument. -/
def configErrorMsg : String :=
  "CellBaseClient configuration not properly set." ++
    " \"pycellbase.config.ConfigClient\" object is needed as" ++
    " parameter"

/-- Builds the facade state with all ten client slots `None` and the given
configuration object; client ids are allocated above the configuration
object's id. -/
def emptyFacade (coid : Nat) (cc : ConfigClient) : CellBaseClient :=
  { gene_client := none
    transcript_client := none
    protein_client := none
    variation_client := none
    xref_client := none
    genomic_region_client := none
    variant_client := none
    genome_sequence_client := none
    clinical_client := none
    meta_client := none
    configuration_oid := coid
    configuration := cc
    next_oid := coid + 1 }

/-- `CellBaseClient.__init__`: sets the ten client slots to `None`; if a
`config_client` argument is given it must be a `ConfigClient`, otherwise a
`ValueError` is raised; if omitted (or `None`), a fresh default
`ConfigClient()` is loaded. -/
def CellBaseClient.init (config_client : Option PyValue) :
    Except String CellBaseClient :=
  match config_client with
  | some v =>
    match v with
    | .config oid cc => .ok (emptyFacade oid cc)
    | _ => .error configErrorMsg
  | none => .ok (emptyFacade 0 ConfigClient.default)

/-- `CellBaseClient.show_configuration`: returns
`self._configuration.configuration`. -/
def CellBaseClient.show_configuration (s : CellBaseClient) : ConfigData :=
  s.configuration.configuration

/-- `CellBaseClient.get_default_configuration`: returns
`self._configuration.get_default_configuration()`. -/
def CellBaseClient.get_default_configuration (s : CellBaseClient) :
    ConfigData :=
  s.configuration.get_default_configuration

/-- The request descriptor produced by one query: the URL path and the
query-string options. -/
structure Request where
  path : String
  options : List (String × String)
deriving DecidableEq, Repr

/-- Modelled from the spec: `pycellbase.commons.get` (source not under
`src/`). Per the spec's wire-level contract it targets
`<host>/<version>/<species>/<category>/<subcategory>/<resource>`, appends
`/<query_id>` exactly when a query id is present, and forwards `options`
as query-string parameters. The network call and response are outside
this embedding; the function returns the request it issues. -/
def commons_get (host version species category subcategory : String)
    (query_id : Option String) (resource : String)
    (options : List (String × String)) : Request :=
  let base := host ++ "/" ++ version ++ "/" ++ species ++ "/" ++
    category ++ "/" ++ subcategory ++ "/" ++ resource
  { path :=
      match query_id with
      | some q => base ++ "/" ++ q
      | none => base
    options := options }

/-- `CellBaseClient.get`: forwards `host`, `version` and `species` from the
stored configuration, the caller's `category`, `subcategory`, `resource`
and `query_id`, and the extra keyword arguments as `options`, to
`pycellbase.commons.get`. -/
def CellBaseClient.get (s : CellBaseClient)
    (category subcategory resource : String) (query_id : Option String)
    (options : List (String × String)) : Request :=
  commons_get s.configuration.host s.configuration.version
    s.configuration.species category subcategory query_id resource options

/-- `CellBaseClient.get_gene_client`: constructs the gene client on first
call and memoizes it; later calls return the stored instance. -/
def CellBaseClient.get_gene_client (s : CellBaseClient) :
    RESTClientObj × CellBaseClient :=
  match s.gene_client with
  | some c => (c, s)
  | none =>
    let c : RESTClientObj :=
      { oid := s.next_oid, kind := .gene, config_oid := s.configuration_oid }
    (c, { s with gene_client := some c, next_oid := s.next_oid + 1 })

/-- `CellBaseClient.get_transcript_client`. -/
def CellBaseClient.get_transcript_client (s : CellBaseClient) :
    RESTClientObj × CellBaseClient :=
  match s.transcript_client with
  | some c => (c, s)
  | none =>
    let c : RESTClientObj :=
      { oid := s.next_oid, kind := .transcript
        config_oid := s.configuration_oid }
    (c, { s with transcript_client := some c, next_oid := s.next_oid + 1 })

/-- `CellBaseClient.get_protein_client`. -/
def CellBaseClient.get_protein_client (s : CellBaseClient) :
    RESTClientObj × CellBaseClient :=
  match s.protein_client with
  | some c => (c, s)
  | none =>
    let c : RESTClientObj :=
      { oid := s.next_oid, kind := .protein
        config_oid := s.configuration_oid }
    (c, { s with protein_client := some c, next_oid := s.next_oid + 1 })

/-- `CellBaseClient.get_variation_client`. -/
def CellBaseClient.get_variation_client (s : CellBaseClient) :
    RESTClientObj × CellBaseClient :=
  match s.variation_client with
  | some c => (c, s)
  | none =>
    let c : RESTClientObj :=
      { oid := s.next_oid, kind := .variation
        config_oid := s.configuration_oid }
    (c, { s with variation_client := some c, next_oid := s.next_oid + 1 })

/-- `CellBaseClient.get_xref_client`. -/
def CellBaseClient.get_xref_client (s : CellBaseClient) :
    RESTClientObj × CellBaseClient :=
  match s.xref_client with
  | some c => (c, s)
  | none =>
    let c : RESTClientObj :=
      { oid := s.next_oid, kind := .xref, config_oid := s.configuration_oid }
    (c, { s with xref_client := some c, next_oid := s.next_oid + 1 })

/-- `CellBaseClient.get_genomic_region_client`. -/
def CellBaseClient.get_genomic_region_client (s : CellBaseClient) :
    RESTClientObj × CellBaseClient :=
  match s.genomic_region_client with
  | some c => (c, s)
  | none =>
    let c : RESTClientObj :=
      { oid := s.next_oid, kind := .genomic_region
        config_oid := s.configuration_oid }
    (c, { s with genomic_region_client := some c
                 next_oid := s.next_oid + 1 })

/-- `CellBaseClient.get_variant_client`. -/
def CellBaseClient.get_variant_client (s : CellBaseClient) :
    RESTClientObj × CellBaseClient :=
  match s.variant_client with
  | some c => (c, s)
  | none =>
    let c : RESTClientObj :=
      { oid := s.next_oid, kind := .variant
        config_oid := s.configuration_oid }
    (c, { s with variant_client := some c, next_oid := s.next_oid + 1 })

/-- `CellBaseClient.get_genome_sequence_client`. -/
def CellBaseClient.get_genome_sequence_client (s : CellBaseClient) :
    RESTClientObj × CellBaseClient :=
  match s.genome_sequence_client with
  | some c => (c, s)
  | none =>
    let c : RESTClientObj :=
      { oid := s.next_oid, kind := .genome_sequence
        config_oid := s.configuration_oid }
    (c, { s with genome_sequence_client := some c
                 next_oid := s.next_oid + 1 })

/-- `CellBaseClient.get_clinical_client`. -/
def CellBaseClient.get_clinical_client (s : CellBaseClient) :
    RESTClientObj × CellBaseClient :=
  match s.clinical_client with
  | some c => (c, s)
  | none =>
    let c : RESTClientObj :=
      { oid := s.next_oid, kind := .clinical
        config_oid := s.configuration_oid }
    (c, { s with clinical_client := some c, next_oid := s.next_oid + 1 })

/-- `CellBaseClient.get_meta_client`. -/
def CellBaseClient.get_meta_client (s : CellBaseClient) :
    RESTClientObj × CellBaseClient :=
  match s.meta_client with
  | some c => (c, s)
  | none =>
    let c : RESTClientObj :=
      { oid := s.next_oid, kind := .meta, config_oid := s.configuration_oid }
    (c, { s with meta_client := some c, next_oid := s.next_oid + 1 })

/-- Dispatches a resource kind to its accessor method. -/
def accessor : ResourceKind → CellBaseClient →
    RESTClientObj × CellBaseClient
  | .gene => CellBaseClient.get_gene_client
  | .transcript => CellBaseClient.get_transcript_client
  | .protein => CellBaseClient.get_protein_client
  | .variation => CellBaseClient.get_variation_client
  | .xref => CellBaseClient.get_xref_client
  | .genomic_region => CellBaseClient.get_genomic_region_client
  | .variant => CellBaseClient.get_variant_client
  | .genome_sequence => CellBaseClient.get_genome_sequence_client
  | .clinical => CellBaseClient.get_clinical_client
  | .meta => CellBaseClient.get_meta_client

/-- Reads the memoization slot of a resource kind. -/
def slotOf : ResourceKind → CellBaseClient → Option RESTClientObj
  | .gene, s => s.gene_client
  | .transcript, s => s.transcript_client
  | .protein, s => s.protein_client
  | .variation, s => s.variation_client
  | .xref, s => s.xref_client
  | .genomic_region, s => s.genomic_region_client
  | .variant, s => s.variant_client
  | .genome_sequence, s => s.genome_sequence_client
  | .clinical, s => s.clinical_client
  | .meta, s => s.meta_client

/-- The result of the `(n+1)`-th call of the accessor for `k`, starting
from state `s` (each call runs on the state left by the previous one). -/
def callRepeat (k : ResourceKind) : Nat → CellBaseClient →
    RESTClientObj × CellBaseClient
  | 0, s => accessor k s
  | n + 1, s => callRepeat k n (accessor k s).2

/-- Runs a sequence of accessor calls on a facade state, returning the
final state. -/
def runTrace (s : CellBaseClient) : List ResourceKind → CellBaseClient
  | [] => s
  | k :: ks => runTrace (accessor k s).2 ks

/-- Writes the memoization slot of a resource kind. -/
def setSlot : ResourceKind → Option RESTClientObj → CellBaseClient →
    CellBaseClient
  | .gene, v, s => { s with gene_client := v }
  | .transcript, v, s => { s with transcript_client := v }
  | .protein, v, s => { s with protein_client := v }
  | .variation, v, s => { s with variation_client := v }
  | .xref, v, s => { s with xref_client := v }
  | .genomic_region, v, s => { s with genomic_region_client := v }
  | .variant, v, s => { s with variant_client := v }
  | .genome_sequence, v, s => { s with genome_sequence_client := v }
  | .clinical, v, s => { s with clinical_client := v }
  | .meta, v, s => { s with meta_client := v }

/-- Uniform characterization of the ten accessor methods, phrased through
`slotOf` and `setSlot`; proved equal to `accessor` below. -/
def accessorSpec (k : ResourceKind) (s : CellBaseClient) :
    RESTClientObj × CellBaseClient :=
  match slotOf k s with
  | some c => (c, s)
  | none =>
    let c : RESTClientObj :=
      { oid := s.next_oid, kind := k, config_oid := s.configuration_oid }
    (c, setSlot k (some c) { s with next_oid := s.next_oid + 1 })

/-- Facade invariant: every filled memoization slot holds a client of the
matching kind, bound to this facade's configuration object. -/
def Inv (s : CellBaseClient) : Prop :=
  ∀ k c, slotOf k s = some c →
    c.kind = k ∧ c.config_oid = s.configuration_oid

theorem slotOf_setSlot_same (k : ResourceKind) (v : Option RESTClientObj)
    (s : CellBaseClient) : slotOf k (setSlot k v s) = v := by
  cases k <;> rfl

theorem slotOf_setSlot_ne (k k' : ResourceKind) (v : Option RESTClientObj)
    (s : CellBaseClient) (h : k' ≠ k) :
    slotOf k' (setSlot k v s) = slotOf k' s := by
  cases k <;> cases k' <;> first
    | exact absurd rfl h
    | rfl

theorem setSlot_configuration (k : ResourceKind) (v : Option RESTClientObj)
    (s : CellBaseClient) : (setSlot k v s).configuration = s.configuration := by
  cases k <;> rfl

theorem setSlot_configuration_oid (k : ResourceKind)
    (v : Option RESTClientObj) (s : CellBaseClient) :
    (setSlot k v s).configuration_oid = s.configuration_oid := by
  cases k <;> rfl

theorem slotOf_bump (k : ResourceKind) (s : CellBaseClient) (m : Nat) :
    slotOf k { s with next_oid := m } = slotOf k s := by
  cases k <;> rfl

/-- The ten accessor methods of `cbclient.py` all follow the memoization
pattern captured by `accessorSpec`. -/
theorem accessor_eq (k : ResourceKind) (s : CellBaseClient) :
    accessor k s = accessorSpec k s := by
  cases k
  case gene =>
    cases hg : s.gene_client <;>
      simp [accessor, accessorSpec, CellBaseClient.get_gene_client, slotOf,
        setSlot, hg]
  case transcript =>
    cases hg : s.transcript_client <;>
      simp [accessor, accessorSpec, CellBaseClient.get_transcript_client,
        slotOf, setSlot, hg]
  case protein =>
    cases hg : s.protein_client <;>
      simp [accessor, accessorSpec, CellBaseClient.get_protein_client,
        slotOf, setSlot, hg]
  case variation =>
    cases hg : s.variation_client <;>
      simp [accessor, accessorSpec, CellBaseClient.get_variation_client,
        slotOf, setSlot, hg]
  case xref =>
    cases hg : s.xref_client <;>
      simp [accessor, accessorSpec, CellBaseClient.get_xref_client, slotOf,
        setSlot, hg]
  case genomic_region =>
    cases hg : s.genomic_region_client <;>
      simp [accessor, accessorSpec, CellBaseClient.get_genomic_region_client,
        slotOf, setSlot, hg]
  case variant =>
    cases hg : s.variant_client <;>
      simp [accessor, accessorSpec, CellBaseClient.get_variant_client,
        slotOf, setSlot, hg]
  case genome_sequence =>
    cases hg : s.genome_sequence_client <;>
      simp [accessor, accessorSpec,
        CellBaseClient.get_genome_sequence_client, slotOf, setSlot, hg]
  case clinical =>
    cases hg : s.clinical_client <;>
      simp [accessor, accessorSpec, CellBaseClient.get_clinical_client,
        slotOf, setSlot, hg]
  case meta =>
    cases hg : s.meta_client <;>
      simp [accessor, accessorSpec, CellBaseClient.get_meta_client, slotOf,
        setSlot, hg]

/-- After a call of the accessor for `k`, the slot for `k` holds exactly
the returned client. -/
theorem slot_after (k : ResourceKind) (s : CellBaseClient) :
    slotOf k (accessor k s).2 = some (accessor k s).1 := by
  rw [accessor_eq]
  unfold accessorSpec
  cases h : slotOf k s with
  | some c => simpa using h
  | none => simp [slotOf_setSlot_same]

/-- On a filled slot, the accessor returns the stored client and leaves the
state untouched. -/
theorem accessor_of_slot (k : ResourceKind) (s : CellBaseClient)
    (c : RESTClientObj) (h : slotOf k s = some c) : accessor k s = (c, s) := by
  rw [accessor_eq]
  unfold accessorSpec
  rw [h]

/-- Calling the accessor for `k` right after a call of the accessor for `k`
returns the same client and does not change the state. -/
theorem accessor_stable (k : ResourceKind) (s : CellBaseClient) :
    accessor k (accessor k s).2 = ((accessor k s).1, (accessor k s).2) :=
  accessor_of_slot k _ _ (slot_after k s)

theorem callRepeat_eq (k : ResourceKind) (n : Nat) :
    ∀ s : CellBaseClient, callRepeat k n s = accessor k s := by
  induction n with
  | zero => intro s; rfl
  | succ n ih =>
    intro s
    calc callRepeat k (n + 1) s = callRepeat k n (accessor k s).2 := rfl
    _ = accessor k (accessor k s).2 := ih _
    _ = ((accessor k s).1, (accessor k s).2) := accessor_stable k s
    _ = accessor k s := rfl

/-- An accessor call changes neither the configuration value nor the
configuration object identity nor any other resource kind's slot. -/
theorem accessor_configuration (k : ResourceKind) (s : CellBaseClient) :
    (accessor k s).2.configuration = s.configuration ∧
    (accessor k s).2.configuration_oid = s.configuration_oid := by
  rw [accessor_eq]
  unfold accessorSpec
  cases h : slotOf k s with
  | some c => exact ⟨rfl, rfl⟩
  | none =>
    exact ⟨setSlot_configuration k _ _, setSlot_configuration_oid k _ _⟩

theorem accessor_other_slot (k k' : ResourceKind) (s : CellBaseClient)
    (h : k' ≠ k) : slotOf k' (accessor k s).2 = slotOf k' s := by
  rw [accessor_eq]
  unfold accessorSpec
  cases hs : slotOf k s with
  | some c => rfl
  | none =>
    simp only
    rw [slotOf_setSlot_ne k k' _ _ h, slotOf_bump]

/-- An accessor call from a state satisfying the invariant returns a client
of its own kind, bound to the facade's configuration object. -/
theorem accessor_result (k : ResourceKind) (s : CellBaseClient)
    (hInv : Inv s) :
    (accessor k s).1.kind = k ∧
    (accessor k s).1.config_oid = s.configuration_oid := by
  rw [accessor_eq]
  unfold accessorSpec
  cases h : slotOf k s with
  | some c => simpa using hInv k c h
  | none => exact ⟨rfl, rfl⟩

theorem inv_accessor (k : ResourceKind) (s : CellBaseClient)
    (hInv : Inv s) : Inv (accessor k s).2 := by
  intro k' c' h'
  have hcfg := (accessor_configuration k s).2
  by_cases hk : k' = k
  · subst hk
    rw [slot_after k' s] at h'
    have hres := accessor_result k' s hInv
    rw [hcfg]
    exact Option.some_injective _ h' ▸ hres
  · rw [accessor_other_slot k k' s hk] at h'
    rw [hcfg]
    exact hInv k' c' h'

theorem inv_empty (coid : Nat) (cc : ConfigClient) :
    Inv (emptyFacade coid cc) := by
  intro k c h
  cases k <;> simp [slotOf, emptyFacade] at h

theorem inv_runTrace (tr : List ResourceKind) :
    ∀ s : CellBaseClient, Inv s → Inv (runTrace s tr) := by
  induction tr with
  | nil => intro s h; exact h
  | cons k tr ih => intro s h; exact ih _ (inv_accessor k s h)

theorem runTrace_configuration (tr : List ResourceKind) :
    ∀ s : CellBaseClient,
      (runTrace s tr).configuration = s.configuration ∧
      (runTrace s tr).configuration_oid = s.configuration_oid := by
  induction tr with
  | nil => intro s; exact ⟨rfl, rfl⟩
  | cons k tr ih =>
    intro s
    have h1 := accessor_configuration k s
    have h2 := ih (accessor k s).2
    exact ⟨h2.1.trans h1.1, h2.2.trans h1.2⟩

theorem init_ok_inv (arg : Option PyValue) (f : CellBaseClient)
    (h : CellBaseClient.init arg = Except.ok f) : Inv f := by
  match arg with
  | some (.config oid cc) =>
    simp only [CellBaseClient.init, Except.ok.injEq] at h
    exact h ▸ inv_empty oid cc
  | some (.mapping m) => simp [CellBaseClient.init] at h
  | some (.pystr str) => simp [CellBaseClient.init] at h
  | none =>
    simp only [CellBaseClient.init, Except.ok.injEq] at h
    exact h ▸ inv_empty 0 ConfigClient.default

theorem string_append_assoc (a b c : String) :
    a ++ b ++ c = a ++ (b ++ c) := by
  apply String.ext
  simp [String.data_append, List.append_assoc]

/-- C1: for every facade state and every resource kind, calling the
accessor any number of times returns the identical client object every
time: every repetition returns exactly the result of the first call, the
first call stores the returned client in its memoization slot, and a
repeated call returns the stored instance without changing the state (so
no new object is constructed). -/
theorem c1_accessor_idempotent (k : ResourceKind) (s : CellBaseClient)
    (n : Nat) :
    callRepeat k n s = accessor k s ∧
    slotOf k (accessor k s).2 = some (accessor k s).1 ∧
    accessor k (accessor k s).2 = ((accessor k s).1, (accessor k s).2) :=
  ⟨callRepeat_eq k n s, slot_after k s, accessor_stable k s⟩

/-- C2: on a facade constructed by `__init__` (after any sequence of
accessor calls), the accessors for two distinct resource kinds return
distinct client objects, and both clients are bound to the facade's one
configuration object (they hold its identity, not a copy). -/
theorem c2_distinct_clients_shared_config (arg : Option PyValue)
    (f : CellBaseClient) (hf : CellBaseClient.init arg = Except.ok f)
    (tr : List ResourceKind) (k1 k2 : ResourceKind) (hne : k1 ≠ k2) :
    (accessor k1 (runTrace f tr)).1 ≠
      (accessor k2 (accessor k1 (runTrace f tr)).2).1 ∧
    (accessor k1 (runTrace f tr)).1.config_oid = f.configuration_oid ∧
    (accessor k2 (accessor k1 (runTrace f tr)).2).1.config_oid =
      f.configuration_oid := by
  have hinv0 : Inv f := init_ok_inv arg f hf
  have hinv1 : Inv (runTrace f tr) := inv_runTrace tr f hinv0
  have hco : (runTrace f tr).configuration_oid = f.configuration_oid :=
    (runTrace_configuration tr f).2
  have h1 := accessor_result k1 (runTrace f tr) hinv1
  have hinv2 : Inv (accessor k1 (runTrace f tr)).2 :=
    inv_accessor k1 (runTrace f tr) hinv1
  have h2 := accessor_result k2 (accessor k1 (runTrace f tr)).2 hinv2
  have hco2 : (accessor k1 (runTrace f tr)).2.configuration_oid =
      (runTrace f tr).configuration_oid :=
    (accessor_configuration k1 (runTrace f tr)).2
  refine ⟨?_, ?_, ?_⟩
  · intro heq
    apply hne
    calc k1 = (accessor k1 (runTrace f tr)).1.kind := h1.1.symm
    _ = (accessor k2 (accessor k1 (runTrace f tr)).2).1.kind :=
      congrArg RESTClientObj.kind heq
    _ = k2 := h2.1
  · rw [h1.2, hco]
  · rw [h2.2, hco2, hco]

theorem c2_witness :
    (accessor ResourceKind.gene
        (runTrace (emptyFacade 0 ConfigClient.default) [])).1 ≠
      (accessor ResourceKind.protein
        (accessor ResourceKind.gene
          (runTrace (emptyFacade 0 ConfigClient.default) [])).2).1 ∧
    (accessor ResourceKind.gene
        (runTrace (emptyFacade 0 ConfigClient.default) [])).1.config_oid =
      (emptyFacade 0 ConfigClient.default).configuration_oid ∧
    (accessor ResourceKind.protein
        (accessor ResourceKind.gene
          (runTrace (emptyFacade 0 ConfigClient.default) [])).2).1.config_oid =
      (emptyFacade 0 ConfigClient.default).configuration_oid :=
  c2_distinct_clients_shared_config none (emptyFacade 0 ConfigClient.default)
    rfl [] ResourceKind.gene ResourceKind.protein (by decide)

/-- C3: `__init__` with a non-`None` argument that is not a `ConfigClient`
(a plain mapping, a string) raises the configuration `ValueError` during
construction and yields no facade; and this type check is the only
validation: any `ConfigClient` argument whatsoever is accepted. -/
theorem c3_init_type_check (v : PyValue) :
    ( v.isConfigClient = false →
      CellBaseClient.init (some v) = Except.error configErrorMsg ∧
      ∀ f : CellBaseClient, CellBaseClient.init (some v) ≠ Except.ok f) ∧
    ( v.isConfigClient = true →
      ∃ f : CellBaseClient, CellBaseClient.init (some v) = Except.ok f) := by
  cases v <;> simp [PyValue.isConfigClient, CellBaseClient.init]

theorem c3_witness :
    CellBaseClient.init (some (PyValue.mapping [])) =
      Except.error configErrorMsg :=
  ((c3_init_type_check (PyValue.mapping [])).1 rfl).1

/-- C4: constructing the facade with a valid `ConfigClient` makes
`show_configuration` return exactly that object's configuration; the
method is a pure read (it is a function of the state, which it does not
change). -/
theorem c4_show_configuration (oid : Nat) (cc : ConfigClient)
    (f : CellBaseClient)
    (hf : CellBaseClient.init (some (PyValue.config oid cc)) = Except.ok f) :
    f.show_configuration = cc.configuration ∧ f.configuration = cc := by
  have h : f = emptyFacade oid cc := by
    simp only [CellBaseClient.init, Except.ok.injEq] at hf
    exact hf.symm
  subst h
  exact ⟨rfl, rfl⟩

theorem c4_witness :
    (emptyFacade 0 ConfigClient.default).show_configuration =
      ConfigClient.default.configuration ∧
    (emptyFacade 0 ConfigClient.default).configuration =
      ConfigClient.default :=
  c4_show_configuration 0 ConfigClient.default
    (emptyFacade 0 ConfigClient.default) rfl

/-- C5: constructing the facade with the configuration argument omitted
succeeds, loads a freshly constructed default configuration, and starts
with every client slot unset. -/
theorem c5_default_construction :
    ∃ f : CellBaseClient, CellBaseClient.init none = Except.ok f ∧
      f.configuration = ConfigClient.default ∧
      f.configuration.configuration = defaultConfigData ∧
      ∀ k, slotOf k f = none := by
  refine ⟨emptyFacade 0 ConfigClient.default, rfl, rfl, rfl, ?_⟩
  intro k
  cases k <;> rfl

/-- C6: `get` targets the path
`<host>/<version>/<species>/<category>/<subcategory>/<resource>`, appending
`/<query_id>` exactly when a query id is present, and forwards the keyword
options unchanged; in particular
`get("feature", "gene", "info", query_id="BRCA2")` produces a path ending
in `/feature/gene/info/BRCA2`. -/
theorem c6_get_request (s : CellBaseClient)
    (category subcategory resource qid : String)
    (options : List (String × String)) :
    (s.get category subcategory resource (some qid) options).path =
      s.configuration.host ++ "/" ++ s.configuration.version ++ "/" ++
        s.configuration.species ++ "/" ++ category ++ "/" ++ subcategory ++
        "/" ++ resource ++ "/" ++ qid ∧
    (s.get category subcategory resource none options).path =
      s.configuration.host ++ "/" ++ s.configuration.version ++ "/" ++
        s.configuration.species ++ "/" ++ category ++ "/" ++ subcategory ++
        "/" ++ resource ∧
    (s.get category subcategory resource (some qid) options).options =
      options ∧
    (s.get category subcategory resource none options).options = options ∧
    ∃ p : String,
      (s.get "feature" "gene" "info" (some "BRCA2") options).path =
        p ++ "/feature/gene/info/BRCA2" := by
  refine ⟨rfl, rfl, rfl, rfl, ?_⟩
  refine ⟨s.configuration.host ++ "/" ++ s.configuration.version ++ "/" ++
    s.configuration.species, ?_⟩
  show s.configuration.host ++ "/" ++ s.configuration.version ++ "/" ++
      s.configuration.species ++ "/" ++ "feature" ++ "/" ++ "gene" ++ "/" ++
      "info" ++ "/" ++ "BRCA2" = _
  simp [string_append_assoc]

/-- C7: an accessor call changes neither the configuration value nor the
configuration object identity nor any other resource kind's slot, and on
an already-filled slot it changes nothing at all. -/
theorem c7_accessor_frame (k k' : ResourceKind) (s : CellBaseClient)
    (hne : k' ≠ k) :
    (accessor k s).2.configuration = s.configuration ∧
    (accessor k s).2.configuration_oid = s.configuration_oid ∧
    slotOf k' (accessor k s).2 = slotOf k' s ∧
    ∀ c, slotOf k s = some c → (accessor k s).2 = s :=
  ⟨(accessor_configuration k s).1, (accessor_configuration k s).2,
    accessor_other_slot k k' s hne,
    fun c hc => congrArg Prod.snd (accessor_of_slot k s c hc)⟩

theorem c7_witness :
    (accessor ResourceKind.gene
        (emptyFacade 0 ConfigClient.default)).2.configuration =
      (emptyFacade 0 ConfigClient.default).configuration ∧
    (accessor ResourceKind.gene
        (emptyFacade 0 ConfigClient.default)).2.configuration_oid =
      (emptyFacade 0 ConfigClient.default).configuration_oid ∧
    slotOf ResourceKind.protein
        (accessor ResourceKind.gene (emptyFacade 0 ConfigClient.default)).2 =
      slotOf ResourceKind.protein (emptyFacade 0 ConfigClient.default) ∧
    (∀ c, slotOf ResourceKind.gene (emptyFacade 0 ConfigClient.default) =
        some c →
      (accessor ResourceKind.gene (emptyFacade 0 ConfigClient.default)).2 =
        emptyFacade 0 ConfigClient.default) :=
  c7_accessor_frame ResourceKind.gene ResourceKind.protein
    (emptyFacade 0 ConfigClient.default) (by decide)

/-- C8: every accessor call on any facade state terminates normally and
returns a client instance (which is also the instance then stored in the
slot); the accessors are total and raise no error. -/
theorem c8_accessor_total (k : ResourceKind) (s : CellBaseClient) :
    ∃ c s2, accessor k s = (c, s2) ∧ slotOf k s2 = some c :=
  ⟨(accessor k s).1, (accessor k s).2, rfl, slot_after k s⟩

/-- C9: `get_default_configuration` returns the same fresh default on any
two facade states, whatever configuration they hold and whatever
operations produced them, and it is a pure read of the state. -/
theorem c9_get_default_configuration_pure (s t : CellBaseClient) :
    CellBaseClient.get_default_configuration s = defaultConfigData ∧
    CellBaseClient.get_default_configuration s =
      CellBaseClient.get_default_configuration t :=
  ⟨rfl, rfl⟩

/-- C10: `get` forwards exactly the caller's keyword options: the
configuration's `default_options` are never read (replacing them changes
nothing about the produced request) and never merged (a call with no
options sends the empty options mapping). -/
theorem c10_options_not_merged (s : CellBaseClient)
    (d : List (String × String))
    (category subcategory resource : String) (qid : Option String)
    (options : List (String × String)) :
    (s.get category subcategory resource qid options).options = options ∧
    CellBaseClient.get
      { s with configuration :=
          { configuration :=
              { s.configuration.configuration with default_options := d } } }
      category subcategory resource qid options =
      s.get category subcategory resource qid options ∧
    (s.get category subcategory resource qid []).options = [] :=
  ⟨rfl, rfl, rfl⟩

end Cellbase
